import Mathlib

/-!
Verification development for the haystack-tutorials repository.

The repository consists of a TOML manifest (`index.toml`, a `[config]` table
followed by an array of `[[tutorial]]` tables) describing tutorial notebooks,
and the notebooks themselves.  The manifest-store operations described by the
specification (`load`, `ordered_view`, `resolve`, `filter`, serialization) have
no implementation inside the repository, so they are modelled here from the
specification text; the manifest data itself is embedded verbatim from
`index.toml`.  The `OutputValidator` component is embedded from the
structured-output notebook (`28_Structured_Output_With_Loop.ipynb`).
-/

deriving instance DecidableEq for Except

namespace ManifestStore

/-- Calendar date given as year, month and day numbers, as written in
the TOML `created_at` fields. -/
structure Date where
  year : Nat
  month : Nat
  day : Nat
  deriving DecidableEq, Repr

/-- Gregorian leap-year test. -/
def isLeap (y : Nat) : Bool :=
  (y % 4 == 0 && y % 100 != 0) || y % 400 == 0

/-- Number of days of a month in a given year. -/
def daysInMonth (y m : Nat) : Nat :=
  if m == 2 then (if isLeap y then 29 else 28)
  else if m == 4 || m == 6 || m == 9 || m == 11 then 30
  else 31

/-- Modelled from the spec: `created_at` "must be a valid calendar date". -/
def validDate (d : Date) : Bool :=
  1 ≤ d.month && d.month ≤ 12 && 1 ≤ d.day && d.day ≤ daysInMonth d.year d.month

/-- The enumerated difficulty levels of a tutorial record. -/
inductive Level where
  | beginner
  | intermediate
  | advanced
  deriving DecidableEq, Repr

/-- String form of a level, as it appears in the manifest. -/
def Level.toStr : Level → String
  | .beginner => "beginner"
  | .intermediate => "intermediate"
  | .advanced => "advanced"

/-- Reading a level from its manifest string; `none` for a string outside
the enumeration. -/
def Level.ofStr : String → Option Level
  | "beginner" => some .beginner
  | "intermediate" => some .intermediate
  | "advanced" => some .advanced
  | _ => none

/-- A TOML value of the shapes that occur in the manifest: strings, integers,
booleans, dates and arrays of strings. -/
inductive Value where
  | str (s : String)
  | int (n : Int)
  | bool (b : Bool)
  | date (d : Date)
  | arr (xs : List String)
  deriving DecidableEq, Repr

/-- A raw TOML table: an ordered list of key/value pairs. -/
abbrev Table := List (String × Value)

/-- A raw manifest: the `[config]` table and the `[[tutorial]]` tables in
declaration order, the shape of `index.toml` after lexical parsing. -/
structure RawManifest where
  config : Table
  tutorial : List Table
  deriving DecidableEq, Repr

/-- The global config table of the manifest.  The source `[config]` table has
exactly the fields `layout`, `toc` and `colab` (the URL prefix used for
hosted-notebook links is stored under the key `colab`). -/
structure Config where
  layout : String
  toc : Bool
  colab : String
  deriving DecidableEq, Repr

/-- One tutorial record, with the fields of a `[[tutorial]]` table of
`index.toml`. -/
structure TutorialRecord where
  title : String
  description : String
  level : Option Level
  weight : Int
  notebook : String
  aliases : List String
  completion_time : Option String
  created_at : Date
  dependencies : List String
  needs_gpu : Bool
  featured : Bool
  hidden : Bool
  sitemap_exclude : Bool
  guide : Bool
  colab : Option Bool
  download : Option Bool
  haystack_version : Option String
  deriving DecidableEq, Repr

/-- Lookup of a string-valued key in a raw table; `none` when the key is
absent or holds a value of another shape. -/
def getStr (tbl : Table) (k : String) : Option String :=
  match List.lookup k tbl with
  | some (.str s) => some s
  | _ => none

/-- Lookup of an integer-valued key in a raw table. -/
def getInt (tbl : Table) (k : String) : Option Int :=
  match List.lookup k tbl with
  | some (.int n) => some n
  | _ => none

/-- Lookup of a date-valued key in a raw table. -/
def getDate (tbl : Table) (k : String) : Option Date :=
  match List.lookup k tbl with
  | some (.date d) => some d
  | _ => none

/-- Lookup of a boolean key with a default for an absent key; `none` when the
key is present with a value of another shape. -/
def getBoolD (tbl : Table) (k : String) (dflt : Bool) : Option Bool :=
  match List.lookup k tbl with
  | some (.bool b) => some b
  | none => some dflt
  | some _ => none

/-- Lookup of a string-array key with the empty default; `none` when the key
is present with a value of another shape. -/
def getArrD (tbl : Table) (k : String) : Option (List String) :=
  match List.lookup k tbl with
  | some (.arr xs) => some xs
  | none => some []
  | some _ => none

/-- Lookup of an optional string key: `ok none` when absent, `ok (some s)`
when a string, failure when present with another shape. -/
def getOptStr (tbl : Table) (k : String) : Except Unit (Option String) :=
  match List.lookup k tbl with
  | some (.str s) => .ok (some s)
  | none => .ok none
  | some _ => .error ()

/-- Lookup of an optional boolean key, keeping the three-way distinction
between absent, explicit `true` and explicit `false`. -/
def getOptBool (tbl : Table) (k : String) : Except Unit (Option Bool) :=
  match List.lookup k tbl with
  | some (.bool b) => .ok (some b)
  | none => .ok none
  | some _ => .error ()

/-- Lookup of the optional `level` key: `ok none` when absent, `ok (some l)`
for a string of the enumeration, failure otherwise. -/
def getOptLevel (tbl : Table) : Except Unit (Option Level) :=
  match List.lookup "level" tbl with
  | some (.str s) =>
    match Level.ofStr s with
    | some l => .ok (some l)
    | none => .error ()
  | none => .ok none
  | some _ => .error ()

/-- Removal of a suffix from a character list when it is present. -/
def dropSuffix (suf cs : List Char) : List Char :=
  if suf.isSuffixOf cs then cs.take (cs.length - suf.length) else cs

/-- Modelled from the spec: the slug is derived from the notebook name of a record and used for routing and lookup; the notebook filename is taken without its
`.ipynb` extension and lowercased. -/
def slugOf (notebook : String) : String :=
  ⟨(dropSuffix ".ipynb".data notebook.data).map Char.toLower⟩

/-- The identifiers a record claims: its own slug followed by its aliases. -/
def claimsOf (r : TutorialRecord) : List String :=
  slugOf r.notebook :: r.aliases

/-- Error taxonomy of `load`: `SchemaError` names the offending record and
field, `UniquenessError` names both conflicting records. -/
inductive LoadError where
  | schemaError (record field : String)
  | uniquenessError (record1 record2 : String)
  deriving DecidableEq, Repr

/-- Error of `resolve` on a lookup miss, carrying the unmatched input. -/
inductive NotFoundError where
  | notFound (s : String)
  deriving DecidableEq, Repr

/-- Name used for a record in diagnostics: its title when present, else its
declaration index. -/
def recName (i : Nat) (tbl : Table) : String :=
  match getStr tbl "title" with
  | some t => t
  | none => "record " ++ toString i

/-- Conversion of a required-field lookup into a schema failure naming the
record and field. -/
def req {α : Type} (nm fld : String) : Option α → Except (String × String) α
  | some a => .ok a
  | none => .error (nm, fld)

/-- Conversion of an optional-field lookup into a schema failure naming the
record and field. -/
def opt {α : Type} (nm fld : String) : Except Unit α → Except (String × String) α
  | .ok a => .ok a
  | .error _ => .error (nm, fld)

/-- Semantic check on an already extracted field, failing with a schema
failure naming the record and field. -/
def ensure (nm fld : String) (ok : Bool) : Except (String × String) Unit :=
  if ok then .ok () else .error (nm, fld)

/-- Modelled from the spec: schema validation of one `[[tutorial]]` table.
Required fields are a non-empty `title`, `description` and `notebook`, an
integer `weight` and a calendar-valid `created_at`; `level` must belong to
the enumeration and may be absent only for `guide` entries; boolean flags
default to `false`; `aliases` and `dependencies` default to the empty list
and every dependency must be a non-empty string; `colab` and `download` keep
their three-way absent/true/false semantics. -/
def parseRecord (i : Nat) (tbl : Table) : Except (String × String) TutorialRecord := do
  let nm := recName i tbl
  let title ← req nm "title" (getStr tbl "title")
  let _ ← ensure nm "title" (!title.isEmpty)
  let description ← req nm "description" (getStr tbl "description")
  let _ ← ensure nm "description" (!description.isEmpty)
  let notebook ← req nm "notebook" (getStr tbl "notebook")
  let _ ← ensure nm "notebook" (!notebook.isEmpty)
  let weight ← req nm "weight" (getInt tbl "weight")
  let created_at ← req nm "created_at" (getDate tbl "created_at")
  let _ ← ensure nm "created_at" (validDate created_at)
  let level ← opt nm "level" (getOptLevel tbl)
  let guide ← req nm "guide" (getBoolD tbl "guide" false)
  let _ ← ensure nm "level" (level.isSome || guide)
  let aliases ← req nm "aliases" (getArrD tbl "aliases")
  let completion_time ← opt nm "completion_time" (getOptStr tbl "completion_time")
  let dependencies ← req nm "dependencies" (getArrD tbl "dependencies")
  let _ ← ensure nm "dependencies" (!dependencies.any (fun d => d.isEmpty))
  let needs_gpu ← req nm "needs_gpu" (getBoolD tbl "needs_gpu" false)
  let featured ← req nm "featured" (getBoolD tbl "featured" false)
  let hidden ← req nm "hidden" (getBoolD tbl "hidden" false)
  let sitemap_exclude ← req nm "sitemap_exclude" (getBoolD tbl "sitemap_exclude" false)
  let colab ← opt nm "colab" (getOptBool tbl "colab")
  let download ← opt nm "download" (getOptBool tbl "download")
  let haystack_version ← opt nm "haystack_version" (getOptStr tbl "haystack_version")
  return { title, description, level, weight, notebook, aliases, completion_time,
           created_at, dependencies, needs_gpu, featured, hidden, sitemap_exclude,
           guide, colab, download, haystack_version }

/-- Modelled from the spec: schema validation of the `[config]` table, whose
fields are `layout`, `toc` and the `colab` URL prefix. -/
def parseConfig (tbl : Table) : Except (String × String) Config := do
  let layout ← req "config" "layout" (getStr tbl "layout")
  let toc ← req "config" "toc" (getBoolD tbl "toc" false)
  let colab ← req "config" "colab" (getStr tbl "colab")
  return { layout, toc, colab }

/-- Schema validation of all `[[tutorial]]` tables in declaration order. -/
def parseRecords (i : Nat) : List Table → Except (String × String) (List TutorialRecord)
  | [] => .ok []
  | t :: ts => do
    let r ← parseRecord i t
    let rs ← parseRecords (i + 1) ts
    return r :: rs

/-- Whether two records claim a common identifier (slug or alias). -/
def collide (r1 r2 : TutorialRecord) : Bool :=
  (claimsOf r1).any (fun s => (claimsOf r2).contains s)

/-- First collision of a record against a list of later records. -/
def findCollisionAux (r : TutorialRecord) : List TutorialRecord → Option (String × String)
  | [] => none
  | x :: xs => if collide r x then some (r.title, x.title) else findCollisionAux r xs

/-- First slug/alias collision between two records of the list, reported as
the pair of their titles. -/
def findCollision : List TutorialRecord → Option (String × String)
  | [] => none
  | r :: rs =>
    match findCollisionAux r rs with
    | some p => some p
    | none => findCollision rs

/-- Modelled from the spec: `load(source)` parses the global config table and
the repeated tutorial table, failing with `SchemaError` on a missing or
badly typed field and with `UniquenessError` on a slug/alias collision. -/
def load (m : RawManifest) : Except LoadError (Config × List TutorialRecord) :=
  match parseConfig m.config with
  | .error (a, b) => .error (.schemaError a b)
  | .ok c =>
    match parseRecords 0 m.tutorial with
    | .error (a, b) => .error (.schemaError a b)
    | .ok rs =>
      match findCollision rs with
      | some (a, b) => .error (.uniquenessError a b)
      | none => .ok (c, rs)

/-- Display ordering of two records: weight ascending. -/
def weightLE (a b : TutorialRecord) : Prop :=
  a.weight ≤ b.weight

instance : DecidableRel weightLE := fun a b => inferInstanceAs (Decidable (a.weight ≤ b.weight))

instance : IsTotal TutorialRecord weightLE :=
  ⟨fun a b => Int.le_total a.weight b.weight⟩

instance : IsTrans TutorialRecord weightLE :=
  ⟨fun _ _ _ h1 h2 => le_trans h1 h2⟩

/-- Modelled from the spec: `ordered_view(records)` sorts by weight ascending
with ties broken by declaration order; a stable insertion sort realizes
exactly that. -/
def ordered_view (rs : List TutorialRecord) : List TutorialRecord :=
  rs.insertionSort weightLE

/-- Whether a record matches a slug-or-alias input: the primary slug is
checked first, then the aliases. -/
def matchesInput (s : String) (r : TutorialRecord) : Bool :=
  slugOf r.notebook == s || r.aliases.contains s

/-- Modelled from the spec: `resolve(slug_or_alias)` returns the first record
whose slug or alias matches, or fails with `NotFoundError`. -/
def resolve (rs : List TutorialRecord) (s : String) : Except NotFoundError TutorialRecord :=
  match rs.find? (matchesInput s) with
  | some r => .ok r
  | none => .error (.notFound s)

/-- A predicate set for `filter`: each recognized option is either
unconstrained (`none`) or pinned to a value. -/
structure Predicates where
  featured : Option Bool
  hidden : Option Bool
  level : Option Level
  guide : Option Bool
  deriving DecidableEq, Repr

/-- The everywhere-unconstrained predicate set. -/
def Predicates.any : Predicates :=
  { featured := none, hidden := none, level := none, guide := none }

/-- Whether a record satisfies every specified predicate of a predicate set
(logical AND; unspecified options impose no constraint). -/
def satisfies (p : Predicates) (r : TutorialRecord) : Bool :=
  (match p.featured with | none => true | some b => r.featured == b) &&
  (match p.hidden with | none => true | some b => r.hidden == b) &&
  (match p.level with | none => true | some l => r.level == some l) &&
  (match p.guide with | none => true | some b => r.guide == b)

/-- Modelled from the spec: `filter(predicate_set)` returns the subset of
`ordered_view` matching all specified predicates. -/
def filter (p : Predicates) (rs : List TutorialRecord) : List TutorialRecord :=
  (ordered_view rs).filter (satisfies p)

/-- One optional key/value entry of a serialized table: present exactly when
the field is set. -/
def optEntry {α : Type} (k : String) (f : α → Value) : Option α → Table
  | some x => [(k, f x)]
  | none => []

/-- Modelled from the spec: serialization of one record back to the
structured text format, emitting the required fields, the boolean flags, and
each optional field exactly when it is set. -/
def serializeRecord (r : TutorialRecord) : Table :=
  [("title", .str r.title),
   ("description", .str r.description),
   ("weight", .int r.weight),
   ("notebook", .str r.notebook),
   ("created_at", .date r.created_at),
   ("aliases", .arr r.aliases),
   ("dependencies", .arr r.dependencies),
   ("needs_gpu", .bool r.needs_gpu),
   ("featured", .bool r.featured),
   ("hidden", .bool r.hidden),
   ("sitemap_exclude", .bool r.sitemap_exclude),
   ("guide", .bool r.guide)]
  ++ optEntry "level" (fun l => .str l.toStr) r.level
  ++ optEntry "completion_time" Value.str r.completion_time
  ++ optEntry "colab" Value.bool r.colab
  ++ optEntry "download" Value.bool r.download
  ++ optEntry "haystack_version" Value.str r.haystack_version

/-- Serialization of the global config table. -/
def serializeConfig (c : Config) : Table :=
  [("layout", .str c.layout), ("toc", .bool c.toc), ("colab", .str c.colab)]

/-- Modelled from the spec: serialization of a validated manifest back to the
structured text format, in declaration order. -/
def serialize (c : Config) (rs : List TutorialRecord) : RawManifest :=
  { config := serializeConfig c, tutorial := rs.map serializeRecord }

/-- The semantic well-formedness a record obtained from `load` enjoys:
non-empty required strings, a calendar-valid date, a level unless the record
is a guide, and non-empty dependency strings. -/
def validRec (r : TutorialRecord) : Bool :=
  !r.title.isEmpty && !r.description.isEmpty && !r.notebook.isEmpty &&
  validDate r.created_at && (r.level.isSome || r.guide) &&
  !(r.dependencies.any (fun d => d.isEmpty))

/-- Modelled from the spec: the link-generation routine builds Colab URLs as
the config `colab` URL prefix concatenated with the notebook filename, unless
the per-record `colab` setting explicitly disables the link. -/
def mkColabLink (c : Config) (r : TutorialRecord) : Option String :=
  match r.colab with
  | some false => none
  | _ => some (c.colab ++ r.notebook)

end ManifestStore

namespace StructuredOutputLoop

/-- A chat message as consumed by the OutputValidator component; only its
text is inspected. -/
structure ChatMessage where
  text : String
  deriving DecidableEq, Repr

/-- The Python exceptions relevant to the component: `json.loads` raises
`ValueError`, Pydantic raises `ValidationError`, and indexing an empty list
raises `IndexError`. -/
inductive PyExc where
  | valueError (s : String)
  | validationError (s : String)
  | indexError (s : String)
  deriving DecidableEq, Repr

/-- String rendering of an exception, the model of Python `str(e)`. -/
def PyExc.msg : PyExc → String
  | .valueError s => s
  | .validationError s => s
  | .indexError s => s

/-- Whether the `except (ValueError, ValidationError)` clause catches an
exception. -/
def caught : PyExc → Bool
  | .valueError _ => true
  | .validationError _ => true
  | .indexError _ => false

/-- The instance state of the OutputValidator component: the configured
Pydantic model and the iteration counter. -/
structure OutputValidator (Model : Type) where
  pydantic_model : Model
  iteration_counter : Nat

/-- The dictionary returned by a completed `run` call: either
`valid_replies`, or `invalid_replies` together with `error_message`. -/
inductive RunResult where
  | valid_replies (replies : List ChatMessage)
  | invalid_replies (replies : List ChatMessage) (error_message : String)
  deriving DecidableEq, Repr

/-- Embedding of `OutputValidator.run` from the structured-output notebook:
the iteration counter is first incremented; then, inside the try block, the
text of the first reply is JSON-decoded and checked against the Pydantic model,
yielding `valid_replies` on success; a `ValueError` or `ValidationError` is
caught and yields `invalid_replies` with the exception text; any other
exception (such as the `IndexError` of `replies[0]` on an empty list)
propagates.  The external `json.loads` and `parse_obj` calls are passed in
as function parameters. -/
def OutputValidator.run {Model Obj : Type}
    (jsonLoads : String → Except PyExc Obj)
    (parseObj : Model → Obj → Except PyExc Unit)
    (v : OutputValidator Model) (replies : List ChatMessage) :
    Except PyExc RunResult × OutputValidator Model :=
  let v2 : OutputValidator Model :=
    { v with iteration_counter := v.iteration_counter + 1 }
  let body : Except PyExc RunResult :=
    match replies with
    | [] => .error (.indexError "list index out of range")
    | r0 :: _ => do
      let obj ← jsonLoads r0.text
      let _ ← parseObj v.pydantic_model obj
      return .valid_replies replies
  match body with
  | .ok res => (.ok res, v2)
  | .error e =>
    if caught e then (.ok (.invalid_replies replies e.msg), v2)
    else (.error e, v2)

end StructuredOutputLoop

namespace ManifestStore

/-- The `[config]` table of the source `index.toml`, embedded verbatim: its
keys are exactly `layout`, `toc` and `colab`. -/
def sourceConfig : Table :=
  [("layout", .str "tutorial"),
   ("toc", .bool true),
   ("colab", .str "https://colab.research.google.com/github/deepset-ai/haystack-tutorials/blob/main/tutorials/")]

/-- The `[[tutorial]]` tables of the source `index.toml`, embedded verbatim
in declaration order, each with exactly the keys present in the file. -/
def sourceTutorials : List Table :=
  [[("title", .str "Creating Your First QA Pipeline with Retrieval-Augmentation"),
    ("description", .str "Build your first generative QA pipeline with OpenAI GPT models"),
    ("level", .str "beginner"),
    ("weight", .int 5),
    ("notebook", .str "27_First_RAG_Pipeline.ipynb"),
    ("aliases", .arr []),
    ("completion_time", .str "10 min"),
    ("created_at", .date ⟨2023, 12, 5⟩),
    ("dependencies", .arr ["datasets>=2.6.1", "sentence-transformers>=4.1.0"]),
    ("featured", .bool true)],
   [("title", .str "Generating Structured Output with Loop-Based Auto-Correction"),
    ("description", .str "Learn how to extract structured data using an LLM, and to validate the generated output against a predefined schema."),
    ("level", .str "intermediate"),
    ("weight", .int 71),
    ("notebook", .str "28_Structured_Output_With_Loop.ipynb"),
    ("aliases", .arr []),
    ("completion_time", .str "15 min"),
    ("created_at", .date ⟨2023, 11, 30⟩),
    ("dependencies", .arr ["colorama"])],
   [("title", .str "Serializing LLM Pipelines"),
    ("description", .str "Learn how to serialize and deserialize your pipelines between YAML and Python"),
    ("level", .str "beginner"),
    ("weight", .int 9),
    ("notebook", .str "29_Serializing_Pipelines.ipynb"),
    ("aliases", .arr []),
    ("completion_time", .str "10 min"),
    ("created_at", .date ⟨2024, 1, 29⟩),
    ("dependencies", .arr ["transformers[torch]"])],
   [("title", .str "Preprocessing Different File Types"),
    ("description", .str "Learn how to build an indexing pipeline that will preprocess files based on their file type"),
    ("level", .str "beginner"),
    ("weight", .int 7),
    ("notebook", .str "30_File_Type_Preprocessing_Index_Pipeline.ipynb"),
    ("aliases", .arr []),
    ("completion_time", .str "15 min"),
    ("created_at", .date ⟨2024, 1, 30⟩),
    ("dependencies", .arr ["sentence-transformers>=4.1.0", "huggingface_hub>=0.23.0",
      "transformers", "markdown-it-py", "mdit_plain", "pypdf", "gdown"])],
   [("title", .str "Filtering Documents with Metadata"),
    ("description", .str "Learn how to filter down to specific documents at retrieval time using metadata"),
    ("level", .str "beginner"),
    ("weight", .int 6),
    ("notebook", .str "31_Metadata_Filtering.ipynb"),
    ("aliases", .arr []),
    ("completion_time", .str "5 min"),
    ("created_at", .date ⟨2024, 1, 30⟩),
    ("dependencies", .arr [])],
   [("title", .str "Classifying Documents & Queries by Language"),
    ("description", .str "Learn how to classify documents and route queries by language, for both indexing and RAG pipelines"),
    ("level", .str "intermediate"),
    ("weight", .int 75),
    ("notebook", .str "32_Classifying_Documents_and_Queries_by_Language.ipynb"),
    ("aliases", .arr []),
    ("completion_time", .str "15 min"),
    ("created_at", .date ⟨2024, 2, 6⟩),
    ("dependencies", .arr ["langdetect"])],
   [("title", .str "Creating a Hybrid Retrieval Pipeline"),
    ("description", .str "Learn how to combine keyword-based retrieval and dense retrieval to enhance retrieval"),
    ("level", .str "intermediate"),
    ("weight", .int 56),
    ("notebook", .str "33_Hybrid_Retrieval.ipynb"),
    ("aliases", .arr []),
    ("completion_time", .str "15 min"),
    ("created_at", .date ⟨2024, 2, 13⟩),
    ("dependencies", .arr ["datasets>=2.6.1", "sentence-transformers>=4.1.0", "accelerate"]),
    ("needs_gpu", .bool true)],
   [("title", .str "Build an Extractive QA Pipeline"),
    ("description", .str "Learn how to build a Haystack pipeline that uses an extractive model to display where the answer to your query is."),
    ("level", .str "beginner"),
    ("weight", .int 15),
    ("notebook", .str "34_Extractive_QA_Pipeline.ipynb"),
    ("aliases", .arr []),
    ("completion_time", .str "10 min"),
    ("created_at", .date ⟨2024, 2, 9⟩),
    ("dependencies", .arr ["accelerate", "sentence-transformers", "datasets"])],
   [("title", .str "Evaluating RAG Pipelines"),
    ("description", .str "Learn how to evaluate your RAG pipelines using statistical and model-based evaluation metrics"),
    ("level", .str "intermediate"),
    ("weight", .int 77),
    ("notebook", .str "35_Evaluating_RAG_Pipelines.ipynb"),
    ("aliases", .arr ["35_model_based_evaluation_of_rag_pipelines"]),
    ("completion_time", .str "15 min"),
    ("created_at", .date ⟨2024, 2, 12⟩),
    ("dependencies", .arr ["datasets>=2.6.1", "sentence-transformers"])],
   [("title", .str "Building an Agentic RAG with Fallback to Websearch"),
    ("description", .str "Learn how to direct the query to a web-based RAG route when necessary"),
    ("level", .str "intermediate"),
    ("weight", .int 81),
    ("notebook", .str "36_Building_Fallbacks_with_Conditional_Routing.ipynb"),
    ("aliases", .arr []),
    ("completion_time", .str "10 min"),
    ("created_at", .date ⟨2024, 2, 16⟩),
    ("dependencies", .arr []),
    ("featured", .bool true)],
   [("title", .str "Simplifying Pipeline Inputs with Multiplexer"),
    ("description", .str "Learn how to declutter the inputs of complex pipelines"),
    ("level", .str "intermediate"),
    ("weight", .int 84),
    ("notebook", .str "37_Simplifying_Pipeline_Inputs_with_Multiplexer.ipynb"),
    ("aliases", .arr []),
    ("completion_time", .str "10 min"),
    ("created_at", .date ⟨2024, 2, 19⟩),
    ("haystack_version", .str "2.3.1"),
    ("dependencies", .arr ["transformers", "huggingface_hub>=0.23.0, <0.28.0"]),
    ("hidden", .bool true),
    ("sitemap_exclude", .bool true)],
   [("title", .str "Embedding Metadata for Improved Retrieval"),
    ("description", .str "Learn how to embed metadata while indexing, to improve the quality of retrieval results"),
    ("level", .str "beginner"),
    ("weight", .int 8),
    ("notebook", .str "39_Embedding_Metadata_for_Improved_Retrieval.ipynb"),
    ("aliases", .arr []),
    ("completion_time", .str "10 min"),
    ("created_at", .date ⟨2024, 2, 20⟩),
    ("dependencies", .arr ["wikipedia", "sentence-transformers"])],
   [("title", .str "Building a Chat Agent with Function Calling"),
    ("description", .str "Learn how to build chat applications that have agent-like behavior with OpenAI function calling"),
    ("level", .str "advanced"),
    ("weight", .int 100),
    ("notebook", .str "40_Building_Chat_Application_with_Function_Calling.ipynb"),
    ("aliases", .arr []),
    ("completion_time", .str "20 min"),
    ("created_at", .date ⟨2024, 3, 5⟩),
    ("dependencies", .arr ["sentence-transformers>=4.1.0", "gradio"]),
    ("featured", .bool true)],
   [("title", .str "Query Classification with TransformersTextRouter and TransformersZeroShotTextRouter"),
    ("description", .str "Learn how to route user questions and other text inputs with classification models"),
    ("level", .str "intermediate"),
    ("weight", .int 105),
    ("notebook", .str "41_Query_Classification_with_TransformersTextRouter_and_TransformersZeroShotTextRouter.ipynb"),
    ("aliases", .arr []),
    ("completion_time", .str "25 min"),
    ("created_at", .date ⟨2024, 10, 15⟩),
    ("dependencies", .arr ["sentence-transformers>=4.1.0", "gradio", "torch", "sentencepiece",
      "datasets", "accelerate"])],
   [("title", .str "Retrieving a Context Window Around a Sentence"),
    ("description", .str "Learn how to use the SentenceWindowRetriever to retrieve a context window"),
    ("level", .str "beginner"),
    ("weight", .int 105),
    ("notebook", .str "42_Sentence_Window_Retriever.ipynb"),
    ("aliases", .arr []),
    ("completion_time", .str "10 min"),
    ("created_at", .date ⟨2024, 10, 16⟩),
    ("dependencies", .arr ["nltk"])],
   [("title", .str "Evaluation"),
    ("description", .str "A guided walkthrough to learn everything about evaluation"),
    ("weight", .int 110),
    ("notebook", .str "guide_evaluation.ipynb"),
    ("aliases", .arr []),
    ("guide", .bool true),
    ("colab", .bool false),
    ("download", .bool false),
    ("created_at", .date ⟨2024, 7, 17⟩)],
   [("title", .str "Build a Tool-Calling Agent"),
    ("description", .str "Learn how to create an Agent that can use a web search tool to answer questions"),
    ("level", .str "beginner"),
    ("weight", .int 7),
    ("notebook", .str "43_Building_a_Tool_Calling_Agent.ipynb"),
    ("aliases", .arr []),
    ("completion_time", .str "10 min"),
    ("created_at", .date ⟨2025, 4, 3⟩),
    ("dependencies", .arr ["docstring-parser", "trafilatura"]),
    ("featured", .bool true)],
   [("title", .str "Creating Custom SuperComponents"),
    ("description", .str "Learn how to use the @super_component decorator to create custom SuperComponents with input and output mappings"),
    ("level", .str "intermediate"),
    ("weight", .int 8),
    ("notebook", .str "44_Creating_Custom_SuperComponents.ipynb"),
    ("aliases", .arr []),
    ("completion_time", .str "20 min"),
    ("created_at", .date ⟨2025, 4, 22⟩),
    ("dependencies", .arr ["sentence-transformers>=4.1.0", "datasets", "accelerate"]),
    ("featured", .bool true)],
   [("title", .str "Creating a Multi-Agent System with Haystack"),
    ("description", .str "Use agents specialized in specific tasks to build more complex, modular agent workflows"),
    ("level", .str "advanced"),
    ("weight", .int 10),
    ("notebook", .str "45_Creating_a_Multi_Agent_System.ipynb"),
    ("aliases", .arr []),
    ("completion_time", .str "20 min"),
    ("created_at", .date ⟨2025, 6, 2⟩),
    ("dependencies", .arr ["duckduckgo-api-haystack", "docstring-parser"]),
    ("featured", .bool true)]]

/-- The whole source `index.toml` as a raw manifest. -/
def sourceManifest : RawManifest :=
  { config := sourceConfig, tutorial := sourceTutorials }

/-- The records obtained by loading the source manifest (empty on a load
failure; the load in fact succeeds). -/
def sourceRecords : List TutorialRecord :=
  match load sourceManifest with
  | .ok (_, rs) => rs
  | .error _ => []

/-- The config obtained by loading the source manifest. -/
def sourceConfigVal : Config :=
  match load sourceManifest with
  | .ok (c, _) => c
  | .error _ => { layout := "", toc := false, colab := "" }

/-- A record with every field at its neutral default, used as the base of
the concrete example records of the spec scenarios. -/
def defaultRecord : TutorialRecord :=
  { title := "record", description := "description", level := some .beginner,
    weight := 0, notebook := "record.ipynb", aliases := [],
    completion_time := none, created_at := ⟨2024, 1, 1⟩, dependencies := [],
    needs_gpu := false, featured := false, hidden := false,
    sitemap_exclude := false, guide := false, colab := none, download := none,
    haystack_version := none }

/-- The record `{title: A, weight: 10, notebook: a.ipynb}` of the spec
end-to-end scenario. -/
def exampleA : TutorialRecord :=
  { defaultRecord with title := "A", weight := 10, notebook := "a.ipynb" }

/-- The record `{title: B, weight: 5, notebook: b.ipynb}` of the spec
end-to-end scenario. -/
def exampleB : TutorialRecord :=
  { defaultRecord with title := "B", weight := 5, notebook := "b.ipynb" }

/-- The record A of the spec filter scenario: `featured = true`. -/
def featuredA : TutorialRecord :=
  { exampleA with featured := true }

/-- The disjunction of schema violations named by the spec: a missing
required field, a non-integer `weight`, a `created_at` that is missing or
not a valid calendar date, or a `level` outside the enumeration. -/
def badRaw (t : Table) : Bool :=
  (getStr t "title").isNone || (getStr t "description").isNone ||
  (getStr t "notebook").isNone || (getInt t "weight").isNone ||
  (match getDate t "created_at" with
   | some d => !validDate d
   | none => true) ||
  (match List.lookup "level" t with
   | some (.str s) => (Level.ofStr s).isNone
   | some _ => true
   | none => false)

/-- A schema-valid raw tutorial table for a record named R1 with notebook
`a.ipynb`. -/
def rawR1 : Table :=
  [("title", .str "R1"), ("description", .str "first"), ("level", .str "beginner"),
   ("weight", .int 1), ("notebook", .str "a.ipynb"),
   ("created_at", .date ⟨2024, 1, 1⟩)]

/-- A schema-valid raw tutorial table for a record named R2 whose notebook
`A.ipynb` yields the same slug `a` as R1. -/
def rawR2 : Table :=
  [("title", .str "R2"), ("description", .str "second"), ("level", .str "advanced"),
   ("weight", .int 2), ("notebook", .str "A.ipynb"),
   ("created_at", .date ⟨2024, 2, 2⟩)]

/-- A schema-valid raw tutorial table for a record named R3 with notebook
`c.ipynb` and the alias `old-c`. -/
def rawR3 : Table :=
  [("title", .str "R3"), ("description", .str "third"), ("level", .str "intermediate"),
   ("weight", .int 3), ("notebook", .str "c.ipynb"),
   ("aliases", .arr ["old-c"]),
   ("created_at", .date ⟨2024, 3, 3⟩)]

/-- A manifest whose two records R1 and R2 claim the same slug. -/
def collideManifest : RawManifest :=
  { config := sourceConfig, tutorial := [rawR1, rawR2] }

/-- A collision-free manifest holding R1 and R3. -/
def uniqManifest : RawManifest :=
  { config := sourceConfig, tutorial := [rawR1, rawR3] }

/-- The parsed form of R1. -/
def recR1 : TutorialRecord :=
  { title := "R1", description := "first", level := some .beginner, weight := 1,
    notebook := "a.ipynb", aliases := [], completion_time := none,
    created_at := ⟨2024, 1, 1⟩, dependencies := [], needs_gpu := false,
    featured := false, hidden := false, sitemap_exclude := false, guide := false,
    colab := none, download := none, haystack_version := none }

/-- The parsed form of R2. -/
def recR2 : TutorialRecord :=
  { recR1 with
    title := "R2", description := "second", level := some Level.advanced,
    weight := 2, notebook := "A.ipynb", created_at := ⟨2024, 2, 2⟩ }

/-- The parsed form of R3. -/
def recR3 : TutorialRecord :=
  { recR1 with
    title := "R3", description := "third", level := some Level.intermediate,
    weight := 3, notebook := "c.ipynb", aliases := ["old-c"],
    created_at := ⟨2024, 3, 3⟩ }

/-- The parsed config of the source `[config]` table. -/
def parsedSourceConfig : Config :=
  { layout := "tutorial", toc := true,
    colab := "https://colab.research.google.com/github/deepset-ai/haystack-tutorials/blob/main/tutorials/" }

/-- A raw tutorial table whose `created_at` names month 13, the invalid
calendar date of the spec scenario. -/
def badDateTable : Table :=
  [("title", .str "Bad"), ("description", .str "bad date"),
   ("level", .str "beginner"), ("weight", .int 1),
   ("notebook", .str "bad.ipynb"),
   ("created_at", .date ⟨2024, 13, 1⟩)]

/-- A manifest holding the invalid-date record. -/
def badDateManifest : RawManifest :=
  { config := sourceConfig, tutorial := [badDateTable] }

end ManifestStore

namespace StructuredOutputLoop

/-- A concrete stand-in for `json.loads` used to instantiate the general
theorems: the text `42` decodes to the number 42, everything else raises a
`ValueError`. -/
def jsonLoadsNum : String → Except PyExc Nat :=
  fun s => if s = "42" then .ok 42 else .error (.valueError "Expecting value")

/-- A concrete stand-in for `parse_obj` used to instantiate the general
theorems: the number 42 validates, everything else raises a
`ValidationError`. -/
def parseObjNum : Unit → Nat → Except PyExc Unit :=
  fun _ n => if n = 42 then .ok () else .error (.validationError "validation failed")

/-- A fresh validator instance over the trivial model. -/
def validator0 : OutputValidator Unit :=
  { pydantic_model := (), iteration_counter := 0 }

end StructuredOutputLoop

/-!
Helper lemmas about the manifest-store operations.
-/

namespace ManifestStore

theorem filter_orderedInsert (r : TutorialRecord) (l : List TutorialRecord) (w : Int) :
    (List.orderedInsert weightLE r l).filter (fun x => x.weight == w) =
      if r.weight = w then r :: l.filter (fun x => x.weight == w)
      else l.filter (fun x => x.weight == w) := by
  induction l with
  | nil =>
    by_cases hr : r.weight = w <;>
      simp [List.orderedInsert, List.filter_cons, beq_iff_eq, hr]
  | cons x xs ih =>
    by_cases h : weightLE r x
    · by_cases hr : r.weight = w <;> by_cases hx : x.weight = w <;>
        simp [List.orderedInsert, h, List.filter_cons, beq_iff_eq, hr, hx]
    · have hlt : x.weight < r.weight := by
        simpa [weightLE, not_le] using h
      by_cases hr : r.weight = w <;> by_cases hx : x.weight = w
      · omega
      · simp [List.orderedInsert, h, List.filter_cons, beq_iff_eq, hr, hx, ih]
      · simp [List.orderedInsert, h, List.filter_cons, beq_iff_eq, hr, hx, ih]
      · simp [List.orderedInsert, h, List.filter_cons, beq_iff_eq, hr, hx, ih]

theorem filter_ordered_view (rs : List TutorialRecord) (w : Int) :
    (ordered_view rs).filter (fun x => x.weight == w) =
      rs.filter (fun x => x.weight == w) := by
  induction rs with
  | nil => rfl
  | cons r rs ih =>
    have ih2 : (List.insertionSort weightLE rs).filter (fun x => x.weight == w) =
        rs.filter (fun x => x.weight == w) := ih
    by_cases hr : r.weight = w <;>
      simp [ordered_view, List.insertionSort, filter_orderedInsert, hr,
        List.filter_cons, beq_iff_eq, ih2]

theorem sorted_ordered_view (rs : List TutorialRecord) :
    (ordered_view rs).Sorted weightLE :=
  List.sorted_insertionSort weightLE rs

theorem collide_eq_false_iff (a b : TutorialRecord) :
    collide a b = false ↔ ∀ s ∈ claimsOf a, s ∉ claimsOf b := by
  simp [collide, List.any_eq_true, List.elem_iff]

theorem collide_eq_true_iff (a b : TutorialRecord) :
    collide a b = true ↔ ∃ s, s ∈ claimsOf a ∧ s ∈ claimsOf b := by
  simp [collide, List.any_eq_true, List.elem_iff]

theorem findCollisionAux_eq_none (r : TutorialRecord) (rs : List TutorialRecord) :
    findCollisionAux r rs = none ↔ ∀ x ∈ rs, collide r x = false := by
  induction rs with
  | nil => simp [findCollisionAux]
  | cons x xs ih =>
    by_cases h : collide r x <;> simp [findCollisionAux, h, ih]

theorem findCollision_eq_none (rs : List TutorialRecord) :
    findCollision rs = none ↔ rs.Pairwise (fun a b => collide a b = false) := by
  induction rs with
  | nil => simp [findCollision]
  | cons r rs ih =>
    rw [List.pairwise_cons]
    cases h : findCollisionAux r rs with
    | some p => simp [findCollision, h, ← findCollisionAux_eq_none, ih]
    | none =>
      simp only [findCollision, h, ih]
      constructor
      · intro hp
        exact ⟨(findCollisionAux_eq_none r rs).mp h, hp⟩
      · intro hp
        exact hp.2

theorem findCollisionAux_eq_some (r : TutorialRecord) (rs : List TutorialRecord)
    (a b : String) (h : findCollisionAux r rs = some (a, b)) :
    a = r.title ∧ ∃ x ∈ rs, x.title = b ∧ collide r x = true := by
  induction rs with
  | nil => simp [findCollisionAux] at h
  | cons x xs ih =>
    by_cases hc : collide r x
    · simp [findCollisionAux, hc] at h
      exact ⟨h.1.symm, x, by simp, h.2, hc⟩
    · simp [findCollisionAux, hc] at h
      obtain ⟨ha, y, hy, hyt, hyc⟩ := ih h
      exact ⟨ha, y, by simp [hy], hyt, hyc⟩

theorem findCollision_eq_some (rs : List TutorialRecord) (a b : String)
    (h : findCollision rs = some (a, b)) :
    ∃ r1 r2, [r1, r2].Sublist rs ∧ r1.title = a ∧ r2.title = b ∧
      collide r1 r2 = true := by
  induction rs with
  | nil => simp [findCollision] at h
  | cons r rs ih =>
    cases haux : findCollisionAux r rs with
    | some p =>
      simp [findCollision, haux] at h
      obtain ⟨ha, x, hx, hxt, hxc⟩ := findCollisionAux_eq_some r rs a b (by simp [haux, h])
      exact ⟨r, x, by simp [List.singleton_sublist.mpr hx], ha.symm, hxt, hxc⟩
    | none =>
      simp [findCollision, haux] at h
      obtain ⟨r1, r2, hs, h1, h2, hc⟩ := ih h
      exact ⟨r1, r2, hs.cons _, h1, h2, hc⟩

theorem load_ok_inv {m : RawManifest} {c : Config} {rs : List TutorialRecord}
    (h : load m = .ok (c, rs)) :
    parseConfig m.config = .ok c ∧ parseRecords 0 m.tutorial = .ok rs ∧
      findCollision rs = none := by
  unfold load at h
  cases h1 : parseConfig m.config with
  | error p => obtain ⟨a, b⟩ := p; simp [h1] at h
  | ok c2 =>
    simp only [h1] at h
    cases h2 : parseRecords 0 m.tutorial with
    | error p => obtain ⟨a, b⟩ := p; simp [h2] at h
    | ok rs2 =>
      simp only [h2] at h
      cases h3 : findCollision rs2 with
      | some p => obtain ⟨a, b⟩ := p; simp [h3] at h
      | none =>
        simp only [h3, Except.ok.injEq, Prod.mk.injEq] at h
        obtain ⟨hc, hr⟩ := h
        subst hc; subst hr
        exact ⟨rfl, rfl, h3⟩

theorem matchesInput_iff (s : String) (r : TutorialRecord) :
    matchesInput s r = true ↔ s ∈ claimsOf r := by
  simp only [matchesInput, claimsOf, Bool.or_eq_true, beq_iff_eq, List.elem_iff,
    List.mem_cons]
  constructor
  · rintro (h | h)
    · exact Or.inl h.symm
    · exact Or.inr h
  · rintro (h | h)
    · exact Or.inl h.symm
    · exact Or.inr h

theorem except_bind_ok {ε α β : Type} (x : Except ε α) (f : α → Except ε β) (b : β) :
    (x >>= f) = .ok b ↔ ∃ a, x = .ok a ∧ f a = .ok b := by
  cases x <;> simp [Bind.bind, Except.bind]

theorem req_ok {α : Type} (nm fld : String) (o : Option α) (a : α) :
    req nm fld o = .ok a ↔ o = some a := by
  cases o <;> simp [req]

theorem opt_ok {α : Type} (nm fld : String) (e : Except Unit α) (a : α) :
    opt nm fld e = .ok a ↔ e = .ok a := by
  cases e <;> simp [opt]

theorem ensure_ok (nm fld : String) (b : Bool) (u : Unit) :
    ensure nm fld b = .ok u ↔ b = true := by
  cases b <;> simp [ensure]

theorem pure_ok {ε α : Type} (a b : α) :
    (pure a : Except ε α) = .ok b ↔ a = b := by
  simp [pure, Except.pure]

theorem ok_bind {e a b : Type} (x : a) (f : a → Except e b) :
    (Except.ok x >>= f : Except e b) = f x := rfl

theorem parseRecord_ok_facts {i : Nat} {t : Table} {r : TutorialRecord}
    (h : parseRecord i t = .ok r) :
    getStr t "title" = some r.title ∧ r.title.isEmpty = false ∧
    getStr t "description" = some r.description ∧ r.description.isEmpty = false ∧
    getStr t "notebook" = some r.notebook ∧ r.notebook.isEmpty = false ∧
    getInt t "weight" = some r.weight ∧
    getDate t "created_at" = some r.created_at ∧ validDate r.created_at = true ∧
    getOptLevel t = .ok r.level ∧
    getBoolD t "guide" false = some r.guide ∧
    (r.level.isSome || r.guide) = true ∧
    getArrD t "aliases" = some r.aliases ∧
    getArrD t "dependencies" = some r.dependencies ∧
    r.dependencies.any (fun d => d.isEmpty) = false := by
  simp only [parseRecord, except_bind_ok, req_ok, opt_ok, ensure_ok, pure_ok] at h
  obtain ⟨t1, h1, _, e1, t2, h2, _, e2, t3, h3, _, e3, w4, h4, d5, h5, _, e5,
    l6, h6, g7, h7, _, e7, al8, h8, ct9, h9, dp10, h10, _, e10, ng, h11, fe, h12,
    hi, h13, se, h14, co, h15, dl, h16, hv, h17, heq⟩ := h
  subst heq
  exact ⟨h1, by simpa using e1, h2, by simpa using e2, h3, by simpa using e3,
    h4, h5, e5, h6, h7, e7, h8, h10, by simpa using e10⟩

theorem parseRecord_ok_valid {i : Nat} {t : Table} {r : TutorialRecord}
    (h : parseRecord i t = .ok r) : validRec r = true := by
  obtain ⟨_, e1, _, e2, _, e3, _, _, e5, _, _, e7, _, _, e10⟩ := parseRecord_ok_facts h
  simp [validRec, e1, e2, e3, e5, e7, e10]

theorem getOptLevel_ok_shape {t : Table} {l : Option Level}
    (h : getOptLevel t = .ok l) :
    (match List.lookup "level" t with
     | some (.str s) => (Level.ofStr s).isNone
     | some _ => true
     | none => false) = false := by
  unfold getOptLevel at h
  cases hl : List.lookup "level" t with
  | none => simp
  | some v =>
    cases v with
    | str s =>
      simp only [hl] at h
      cases ho : Level.ofStr s with
      | none => simp only [ho] at h; simp at h
      | some lv => simp only [hl]; simp [ho]
    | int n => simp only [hl] at h; simp at h
    | bool b => simp only [hl] at h; simp at h
    | date d => simp only [hl] at h; simp at h
    | arr xs => simp only [hl] at h; simp at h

theorem badRaw_no_parse {t : Table} (hb : badRaw t = true) (i : Nat)
    (r : TutorialRecord) : parseRecord i t ≠ .ok r := by
  intro h
  obtain ⟨h1, _, h2, _, h3, _, h4, h5, e5, h6, _, _, _, _, _⟩ := parseRecord_ok_facts h
  have hshape := getOptLevel_ok_shape h6
  simp [badRaw, h1, h2, h3, h4, h5, e5, hshape] at hb

theorem parseRecords_ok_mem {ts : List Table} :
    ∀ {i : Nat} {rs : List TutorialRecord}, parseRecords i ts = .ok rs →
      ∀ t ∈ ts, ∃ j r, parseRecord j t = .ok r := by
  induction ts with
  | nil => intro i rs _ t ht; simp at ht
  | cons t0 ts ih =>
    intro i rs h t ht
    simp only [parseRecords, except_bind_ok, pure_ok] at h
    obtain ⟨r0, hr0, rs2, hrs2, _⟩ := h
    rcases List.mem_cons.mp ht with rfl | hmem
    · exact ⟨i, r0, hr0⟩
    · exact ih hrs2 t hmem

theorem parseRecords_ok_valid {ts : List Table} :
    ∀ {i : Nat} {rs : List TutorialRecord}, parseRecords i ts = .ok rs →
      ∀ r ∈ rs, validRec r = true := by
  induction ts with
  | nil => intro i rs h r hr; simp [parseRecords] at h; subst h; simp at hr
  | cons t0 ts ih =>
    intro i rs h r hr
    simp only [parseRecords, except_bind_ok, pure_ok] at h
    obtain ⟨r0, hr0, rs2, hrs2, heq⟩ := h
    subst heq
    rcases List.mem_cons.mp hr with rfl | hmem
    · exact parseRecord_ok_valid hr0
    · exact ih hrs2 r hmem

theorem parseConfig_serializeConfig (c : Config) :
    parseConfig (serializeConfig c) = .ok c := rfl

theorem levelRoundTrip (l : Level) : Level.ofStr l.toStr = some l := by
  cases l <;> rfl

theorem sr_title (r : TutorialRecord) :
    getStr (serializeRecord r) "title" = some r.title := by
  simp [serializeRecord, getStr, List.lookup]

theorem sr_description (r : TutorialRecord) :
    getStr (serializeRecord r) "description" = some r.description := by
  simp [serializeRecord, getStr, List.lookup]

theorem sr_weight (r : TutorialRecord) :
    getInt (serializeRecord r) "weight" = some r.weight := by
  simp [serializeRecord, getInt, List.lookup]

theorem sr_notebook (r : TutorialRecord) :
    getStr (serializeRecord r) "notebook" = some r.notebook := by
  simp [serializeRecord, getStr, List.lookup]

theorem sr_created_at (r : TutorialRecord) :
    getDate (serializeRecord r) "created_at" = some r.created_at := by
  simp [serializeRecord, getDate, List.lookup]

theorem sr_aliases (r : TutorialRecord) :
    getArrD (serializeRecord r) "aliases" = some r.aliases := by
  simp [serializeRecord, getArrD, List.lookup]

theorem sr_dependencies (r : TutorialRecord) :
    getArrD (serializeRecord r) "dependencies" = some r.dependencies := by
  simp [serializeRecord, getArrD, List.lookup]

theorem sr_needs_gpu (r : TutorialRecord) :
    getBoolD (serializeRecord r) "needs_gpu" false = some r.needs_gpu := by
  simp [serializeRecord, getBoolD, List.lookup]

theorem sr_featured (r : TutorialRecord) :
    getBoolD (serializeRecord r) "featured" false = some r.featured := by
  simp [serializeRecord, getBoolD, List.lookup]

theorem sr_hidden (r : TutorialRecord) :
    getBoolD (serializeRecord r) "hidden" false = some r.hidden := by
  simp [serializeRecord, getBoolD, List.lookup]

theorem sr_sitemap_exclude (r : TutorialRecord) :
    getBoolD (serializeRecord r) "sitemap_exclude" false = some r.sitemap_exclude := by
  simp [serializeRecord, getBoolD, List.lookup]

theorem sr_guide (r : TutorialRecord) :
    getBoolD (serializeRecord r) "guide" false = some r.guide := by
  simp [serializeRecord, getBoolD, List.lookup]

theorem sr_level (r : TutorialRecord) :
    getOptLevel (serializeRecord r) = .ok r.level := by
  obtain ⟨title, description, lv, weight, notebook, aliases, ct, created_at,
    dependencies, needs_gpu, featured, hidden, sitemap_exclude, guide, co, dl,
    hv⟩ := r
  cases lv <;> cases ct <;> cases co <;> cases dl <;> cases hv <;>
    simp [serializeRecord, getOptLevel, optEntry, List.lookup, levelRoundTrip]

theorem sr_completion_time (r : TutorialRecord) :
    getOptStr (serializeRecord r) "completion_time" = .ok r.completion_time := by
  obtain ⟨title, description, lv, weight, notebook, aliases, ct, created_at,
    dependencies, needs_gpu, featured, hidden, sitemap_exclude, guide, co, dl,
    hv⟩ := r
  cases lv <;> cases ct <;> cases co <;> cases dl <;> cases hv <;>
    simp [serializeRecord, getOptStr, optEntry, List.lookup]

theorem sr_colab (r : TutorialRecord) :
    getOptBool (serializeRecord r) "colab" = .ok r.colab := by
  obtain ⟨title, description, lv, weight, notebook, aliases, ct, created_at,
    dependencies, needs_gpu, featured, hidden, sitemap_exclude, guide, co, dl,
    hv⟩ := r
  cases lv <;> cases ct <;> cases co <;> cases dl <;> cases hv <;>
    simp [serializeRecord, getOptBool, optEntry, List.lookup]

theorem sr_download (r : TutorialRecord) :
    getOptBool (serializeRecord r) "download" = .ok r.download := by
  obtain ⟨title, description, lv, weight, notebook, aliases, ct, created_at,
    dependencies, needs_gpu, featured, hidden, sitemap_exclude, guide, co, dl,
    hv⟩ := r
  cases lv <;> cases ct <;> cases co <;> cases dl <;> cases hv <;>
    simp [serializeRecord, getOptBool, optEntry, List.lookup]

theorem sr_haystack_version (r : TutorialRecord) :
    getOptStr (serializeRecord r) "haystack_version" = .ok r.haystack_version := by
  obtain ⟨title, description, lv, weight, notebook, aliases, ct, created_at,
    dependencies, needs_gpu, featured, hidden, sitemap_exclude, guide, co, dl,
    hv⟩ := r
  cases lv <;> cases ct <;> cases co <;> cases dl <;> cases hv <;>
    simp [serializeRecord, getOptStr, optEntry, List.lookup]

theorem parseRecord_serializeRecord (i : Nat) (r : TutorialRecord)
    (h : validRec r = true) : parseRecord i (serializeRecord r) = .ok r := by
  simp only [validRec, Bool.and_eq_true, Bool.not_eq_true'] at h
  obtain ⟨⟨⟨⟨⟨ht, hd⟩, hn⟩, hv⟩, hl⟩, hdep⟩ := h
  simp only [parseRecord, recName, sr_title, sr_description, sr_weight, sr_notebook,
    sr_created_at, sr_aliases, sr_dependencies, sr_needs_gpu, sr_featured, sr_hidden,
    sr_sitemap_exclude, sr_guide, sr_level, sr_completion_time, sr_colab, sr_download,
    sr_haystack_version, req, opt, ensure, ok_bind, ht, hd, hn, hv, hl, hdep,
    Bool.not_false, if_true]
  rfl

theorem parseRecords_serialize {rs : List TutorialRecord} :
    ∀ i, (∀ r ∈ rs, validRec r = true) →
      parseRecords i (rs.map serializeRecord) = .ok rs := by
  induction rs with
  | nil => intro i _; rfl
  | cons r rs ih =>
    intro i hv
    simp only [List.map_cons, parseRecords,
      parseRecord_serializeRecord i r (hv r (List.mem_cons_self r rs)), ok_bind,
      ih (i + 1) (fun x hx => hv x (List.mem_cons_of_mem r hx))]
    rfl

theorem satisfies_iff (p : Predicates) (r : TutorialRecord) :
    satisfies p r = true ↔
      (∀ b, p.featured = some b → r.featured = b) ∧
      (∀ b, p.hidden = some b → r.hidden = b) ∧
      (∀ l, p.level = some l → r.level = some l) ∧
      (∀ b, p.guide = some b → r.guide = b) := by
  obtain ⟨pf, ph, pl, pg⟩ := p
  cases pf <;> cases ph <;> cases pl <;> cases pg <;>
    simp [satisfies, beq_iff_eq, and_assoc]

end ManifestStore

/-!
Claim theorems for the manifest store, with their witnesses.
-/

namespace ManifestStore

/-- C1: `ordered_view` yields a permutation of the given records that is
sorted non-decreasingly by weight, and it is stable: for every weight, the
records of that weight appear exactly in their original declaration order.
Being a pure function of the record list, it produces the same order on
every repeated traversal.  On the spec scenario with record A of weight 10
and record B of weight 5 it returns [B, A]. -/
theorem C1_ordered_view (rs : List TutorialRecord) (w : Int) :
    (ordered_view rs).Perm rs ∧
    (ordered_view rs).Sorted weightLE ∧
    (ordered_view rs).filter (fun x => x.weight == w) =
      rs.filter (fun x => x.weight == w) ∧
    ordered_view [exampleA, exampleB] = [exampleB, exampleA] :=
  ⟨List.perm_insertionSort weightLE rs, sorted_ordered_view rs,
   filter_ordered_view rs w, by decide⟩

/-- C2: when `load` succeeds, the claimed identifiers of the records — the
slug of each record together with its aliases — are pairwise disjoint
across distinct records; and on a schema-valid manifest violating this
disjointness, `load` fails with a `UniquenessError` naming the titles of
two records that indeed claim a common identifier. -/
theorem C2_uniqueness (m : RawManifest) (c : Config) (rs : List TutorialRecord) :
    (load m = .ok (c, rs) →
      rs.Pairwise (fun r1 r2 => ∀ s ∈ claimsOf r1, s ∉ claimsOf r2)) ∧
    (parseConfig m.config = .ok c → parseRecords 0 m.tutorial = .ok rs →
      ¬ rs.Pairwise (fun r1 r2 => ∀ s ∈ claimsOf r1, s ∉ claimsOf r2) →
      ∃ a b r1 r2, load m = .error (.uniquenessError a b) ∧
        [r1, r2].Sublist rs ∧ r1.title = a ∧ r2.title = b ∧
        ∃ s, s ∈ claimsOf r1 ∧ s ∈ claimsOf r2) := by
  constructor
  · intro h
    obtain ⟨_, _, hfc⟩ := load_ok_inv h
    exact ((findCollision_eq_none rs).mp hfc).imp
      (fun {a b} hab => (collide_eq_false_iff a b).mp hab)
  · intro h1 h2 h3
    cases hfc : findCollision rs with
    | none =>
      exact absurd (((findCollision_eq_none rs).mp hfc).imp
        (fun {a b} hab => (collide_eq_false_iff a b).mp hab)) h3
    | some p =>
      obtain ⟨a, b⟩ := p
      obtain ⟨r1, r2, hs, ht1, ht2, hc⟩ := findCollision_eq_some rs a b hfc
      refine ⟨a, b, r1, r2, ?_, hs, ht1, ht2, (collide_eq_true_iff r1 r2).mp hc⟩
      simp only [load, h1, h2, hfc]

set_option maxRecDepth 1000000 in
/-- Witness for C2: the two-record collision-free manifest loads and its
records are disjoint, while the manifest whose records R1 and R2 share the
slug `a` fails with a `UniquenessError` naming both. -/
theorem C2_uniqueness_witness :
    List.Pairwise (fun r1 r2 => ∀ s ∈ claimsOf r1, s ∉ claimsOf r2)
      [recR1, recR3] ∧
    ∃ a b r1 r2, load collideManifest = .error (.uniquenessError a b) ∧
      [r1, r2].Sublist [recR1, recR2] ∧ r1.title = a ∧ r2.title = b ∧
      ∃ s, s ∈ claimsOf r1 ∧ s ∈ claimsOf r2 :=
  ⟨(C2_uniqueness uniqManifest parsedSourceConfig [recR1, recR3]).1 (by decide),
   (C2_uniqueness collideManifest parsedSourceConfig [recR1, recR2]).2
     (by decide) (by decide) (by decide)⟩

/-- C3: under the load-time disjointness invariant, `resolve` is correct:
a successful resolution returns a member record whose slug or alias equals
the input (the definition checks the primary slug before the aliases); when
no record claims the input it fails with `NotFoundError`; and the slug and
every alias of each record resolve to exactly that record. -/
theorem C3_resolve (rs : List TutorialRecord) (s : String)
    (hu : rs.Pairwise (fun r1 r2 => ∀ t ∈ claimsOf r1, t ∉ claimsOf r2)) :
    (∀ r, resolve rs s = .ok r → r ∈ rs ∧ s ∈ claimsOf r) ∧
    ((∀ r ∈ rs, s ∉ claimsOf r) → resolve rs s = .error (.notFound s)) ∧
    (∀ r ∈ rs, resolve rs (slugOf r.notebook) = .ok r ∧
      ∀ a ∈ r.aliases, resolve rs a = .ok r) := by
  refine ⟨?_, ?_, ?_⟩
  · intro r h
    unfold resolve at h
    cases hf : List.find? (matchesInput s) rs with
    | none => rw [hf] at h; simp at h
    | some r2 =>
      rw [hf] at h
      simp only [Except.ok.injEq] at h
      exact h ▸ ⟨List.mem_of_find?_eq_some hf,
        (matchesInput_iff s r2).mp (List.find?_some hf)⟩
  · intro h
    have hnone : List.find? (matchesInput s) rs = none := by
      rw [List.find?_eq_none]
      intro x hx hpx
      exact h x hx ((matchesInput_iff s x).mp hpx)
    simp [resolve, hnone]
  · intro r hr
    induction rs with
    | nil => simp at hr
    | cons x xs ih =>
      obtain ⟨hx, hxs⟩ := List.pairwise_cons.mp hu
      rcases List.mem_cons.mp hr with heq | hmem
      · subst heq
        constructor
        · have hm : matchesInput (slugOf r.notebook) r = true :=
            (matchesInput_iff _ r).mpr (List.mem_cons_self _ _)
          simp [resolve, List.find?_cons_of_pos, hm]
        · intro a ha
          have hm : matchesInput a r = true :=
            (matchesInput_iff a r).mpr (List.mem_cons_of_mem _ ha)
          simp [resolve, List.find?_cons_of_pos, hm]
      · have hnot : ∀ t, t ∈ claimsOf r → matchesInput t x = false := by
          intro t htr
          cases hmx : matchesInput t x with
          | false => rfl
          | true => exact absurd htr (hx r hmem t ((matchesInput_iff t x).mp hmx))
        have hstep : ∀ t, t ∈ claimsOf r → resolve (x :: xs) t = resolve xs t := by
          intro t htr
          simp [resolve, List.find?_cons_of_neg, hnot t htr]
        obtain ⟨ih1, ih2⟩ := ih hxs hmem
        constructor
        · rw [hstep _ (List.mem_cons_self _ _)]
          exact ih1
        · intro a ha
          rw [hstep a (List.mem_cons_of_mem _ ha)]
          exact ih2 a ha

set_option maxRecDepth 1000000 in
/-- Witness for C3: on the records R1 and R3 of the collision-free manifest,
resolution of the alias `old-c` and of each slug behaves as claimed. -/
theorem C3_resolve_witness :
    (∀ r, resolve [recR1, recR3] "old-c" = .ok r →
      r ∈ [recR1, recR3] ∧ "old-c" ∈ claimsOf r) ∧
    ((∀ r ∈ [recR1, recR3], "old-c" ∉ claimsOf r) →
      resolve [recR1, recR3] "old-c" = .error (.notFound "old-c")) ∧
    (∀ r ∈ [recR1, recR3], resolve [recR1, recR3] (slugOf r.notebook) = .ok r ∧
      ∀ a ∈ r.aliases, resolve [recR1, recR3] a = .ok r) :=
  C3_resolve [recR1, recR3] "old-c" (by decide)

/-- C4 counterexample: the global config table of the source manifest has no
field named `colab_base_url`; the URL prefix for hosted-notebook links is
stored under the field named `colab` instead. -/
theorem C4_counterexample :
    List.lookup "colab_base_url" sourceManifest.config = none ∧
    List.lookup "colab" sourceManifest.config =
      some (.str "https://colab.research.google.com/github/deepset-ai/haystack-tutorials/blob/main/tutorials/") := by
  constructor <;> rfl

/-- C4 (amended): the global config table stores the URL prefix for
hosted-notebook links under the field named `colab` (not `colab_base_url`),
parsed into the `colab` field of `Config`; and for every record the Colab
link is the config `colab` prefix concatenated with the notebook filename
exactly when the per-record `colab` setting does not explicitly disable it
(the global config always supplies the prefix). -/
theorem C4_colab_field (c : Config) (r : TutorialRecord) :
    parseConfig sourceManifest.config = .ok parsedSourceConfig ∧
    parsedSourceConfig.colab =
      "https://colab.research.google.com/github/deepset-ai/haystack-tutorials/blob/main/tutorials/" ∧
    (mkColabLink c r = some (c.colab ++ r.notebook) ↔ r.colab ≠ some false) := by
  refine ⟨rfl, rfl, ?_⟩
  cases hc : r.colab with
  | none => simp [mkColabLink, hc]
  | some b => cases b <;> simp [mkColabLink, hc]

/-- C5: a manifest containing a tutorial table with a missing required
field, a non-integer `weight`, a missing or calendar-invalid `created_at`,
or a `level` outside the enumeration makes `load` fail with a
`SchemaError` instead of returning records. -/
theorem C5_schema_error (m : RawManifest) (t : Table) (ht : t ∈ m.tutorial)
    (hb : badRaw t = true) :
    ∃ a b, load m = .error (.schemaError a b) := by
  cases h1 : parseConfig m.config with
  | error p =>
    obtain ⟨a, b⟩ := p
    exact ⟨a, b, by simp only [load, h1]⟩
  | ok c =>
    cases h2 : parseRecords 0 m.tutorial with
    | error p =>
      obtain ⟨a, b⟩ := p
      exact ⟨a, b, by simp only [load, h1, h2]⟩
    | ok rs =>
      obtain ⟨j, r, hjr⟩ := parseRecords_ok_mem h2 t ht
      exact absurd hjr (badRaw_no_parse hb j r)

set_option maxRecDepth 1000000 in
/-- Witness for C5: the manifest whose record gives `created_at` month 13
fails with a `SchemaError`. -/
theorem C5_schema_error_witness :
    ∃ a b, load badDateManifest = .error (.schemaError a b) :=
  C5_schema_error badDateManifest badDateTable (by decide) (by decide)

/-- C6: `filter` returns a subsequence of `ordered_view`; membership in the
result holds exactly for records of `ordered_view` satisfying every
specified predicate of the predicate set (logical AND, with unspecified
options imposing no constraint); and on the spec scenario — record A
featured, record B not — filtering on `featured = true` returns exactly
[A]. -/
theorem C6_filter (p : Predicates) (rs : List TutorialRecord) (r : TutorialRecord) :
    (filter p rs).Sublist (ordered_view rs) ∧
    (r ∈ filter p rs ↔ r ∈ ordered_view rs ∧
      (∀ b, p.featured = some b → r.featured = b) ∧
      (∀ b, p.hidden = some b → r.hidden = b) ∧
      (∀ l, p.level = some l → r.level = some l) ∧
      (∀ b, p.guide = some b → r.guide = b)) ∧
    filter { featured := some true, hidden := none, level := none, guide := none }
      [featuredA, exampleB] = [featuredA] := by
  refine ⟨?_, ?_, by decide⟩
  · simp only [filter]
    exact List.filter_sublist _
  · simp only [filter, List.mem_filter, satisfies_iff, and_assoc]

/-- C7: reloading the serialization of a loaded manifest returns exactly the
same config and records, field for field and in the same declaration
order. -/
theorem C7_roundtrip (m : RawManifest) (c : Config) (rs : List TutorialRecord)
    (h : load m = .ok (c, rs)) :
    load (serialize c rs) = .ok (c, rs) := by
  obtain ⟨h1, h2, h3⟩ := load_ok_inv h
  have hv := parseRecords_ok_valid h2
  simp only [load, serialize, parseConfig_serializeConfig,
    parseRecords_serialize 0 hv, h3]

set_option maxRecDepth 1000000 in
/-- Witness for C7: the collision-free two-record manifest round-trips. -/
theorem C7_roundtrip_witness :
    load (serialize parsedSourceConfig [recR1, recR3]) =
      .ok (parsedSourceConfig, [recR1, recR3]) :=
  C7_roundtrip uniqManifest parsedSourceConfig [recR1, recR3] (by decide)

end ManifestStore

/-!
Claim theorems for the OutputValidator component of the structured-output
notebook.
-/

namespace StructuredOutputLoop

theorem so_ok_bind {e a b : Type} (x : a) (f : a → Except e b) :
    (Except.ok x >>= f : Except e b) = f x := rfl

theorem so_error_bind {e a b : Type} (x : e) (f : a → Except e b) :
    (Except.error x >>= f : Except e b) = .error x := rfl

/-- C8: on a non-empty reply list, `run` returns `valid_replies` with the
whole input list exactly when the text of the first reply JSON-decodes and
the decoded object validates against the configured model; and when either
step raises a `ValueError` or `ValidationError`, it returns
`invalid_replies` with the whole input list and the exception text. -/
theorem C8_run_try_except {Model Obj : Type}
    (jsonLoads : String → Except PyExc Obj)
    (parseObj : Model → Obj → Except PyExc Unit)
    (v : OutputValidator Model) (r0 : ChatMessage) (rest : List ChatMessage) :
    ((OutputValidator.run jsonLoads parseObj v (r0 :: rest)).1 =
        .ok (.valid_replies (r0 :: rest)) ↔
      ∃ obj, jsonLoads r0.text = .ok obj ∧ parseObj v.pydantic_model obj = .ok ()) ∧
    (∀ e, jsonLoads r0.text = .error e → caught e = true →
      (OutputValidator.run jsonLoads parseObj v (r0 :: rest)).1 =
        .ok (.invalid_replies (r0 :: rest) e.msg)) ∧
    (∀ obj e, jsonLoads r0.text = .ok obj →
      parseObj v.pydantic_model obj = .error e → caught e = true →
      (OutputValidator.run jsonLoads parseObj v (r0 :: rest)).1 =
        .ok (.invalid_replies (r0 :: rest) e.msg)) := by
  cases hj : jsonLoads r0.text with
  | ok obj =>
    cases hp : parseObj v.pydantic_model obj with
    | ok u =>
      refine ⟨?_, ?_, ?_⟩
      · refine ⟨fun _ => ⟨obj, rfl, ?_⟩, fun _ => ?_⟩
        · rw [hp]
        · simp [OutputValidator.run, hj, hp, so_ok_bind, pure, Except.pure]
      · intro e he _
        simp at he
      · intro obj2 e hobj hpe hce
        injection hobj with h1
        subst h1
        rw [hp] at hpe
        simp at hpe
    | error e0 =>
      refine ⟨?_, ?_, ?_⟩
      · cases hc : caught e0 <;>
          simp [OutputValidator.run, hj, hp, so_ok_bind, so_error_bind, hc, pure,
            Except.pure]
      · intro e he _
        simp at he
      · intro obj2 e hobj hpe hce
        injection hobj with h1
        subst h1
        rw [hp] at hpe
        injection hpe with h2
        subst h2
        simp [OutputValidator.run, hj, hp, so_ok_bind, so_error_bind, hce, pure,
          Except.pure]
  | error e0 =>
    refine ⟨?_, ?_, ?_⟩
    · cases hc : caught e0 <;>
        simp [OutputValidator.run, hj, so_error_bind, hc, pure, Except.pure]
    · intro e he hce
      injection he with h1
      subst h1
      simp [OutputValidator.run, hj, so_error_bind, hce, pure, Except.pure]
    · intro obj e hobj _ _
      simp at hobj

/-- Witness for C8: with the concrete decode and validation functions, the
reply `42` yields `valid_replies` and the reply `x` yields
`invalid_replies` with the decode-error text. -/
theorem C8_run_try_except_witness :
    (OutputValidator.run jsonLoadsNum parseObjNum validator0
      [{ text := "42" }]).1 = .ok (.valid_replies [{ text := "42" }]) ∧
    (OutputValidator.run jsonLoadsNum parseObjNum validator0
      [{ text := "x" }]).1 =
      .ok (.invalid_replies [{ text := "x" }] "Expecting value") :=
  ⟨(C8_run_try_except jsonLoadsNum parseObjNum validator0 { text := "42" } []).1.mpr
     ⟨42, by decide, by decide⟩,
   (C8_run_try_except jsonLoadsNum parseObjNum validator0 { text := "x" } []).2.1
     (.valueError "Expecting value") (by decide) (by decide)⟩

/-- C9: on the empty reply list, `run` fails with an uncaught `IndexError`
from indexing the first reply — not with an `invalid_replies` result — and
on a non-empty list, provided the external decode and validation calls do
not themselves raise `IndexError`, no `IndexError` can be returned: the
except clause catches only `ValueError` and `ValidationError`. -/
theorem C9_index_error {Model Obj : Type}
    (jsonLoads : String → Except PyExc Obj)
    (parseObj : Model → Obj → Except PyExc Unit) (v : OutputValidator Model) :
    ((OutputValidator.run jsonLoads parseObj v []).1 =
      .error (.indexError "list index out of range")) ∧
    (∀ em, (OutputValidator.run jsonLoads parseObj v []).1 ≠
      .ok (.invalid_replies [] em)) ∧
    (∀ r0 rest,
      (∀ s, jsonLoads r0.text ≠ .error (.indexError s)) →
      (∀ obj s, parseObj v.pydantic_model obj ≠ .error (.indexError s)) →
      ∀ s, (OutputValidator.run jsonLoads parseObj v (r0 :: rest)).1 ≠
        .error (.indexError s)) := by
  refine ⟨rfl, by simp [OutputValidator.run, caught], ?_⟩
  intro r0 rest hj hp s
  cases hje : jsonLoads r0.text with
  | ok obj =>
    cases hpe : parseObj v.pydantic_model obj with
    | ok u =>
      simp [OutputValidator.run, hje, hpe, so_ok_bind, so_error_bind, pure,
        Except.pure]
    | error e =>
      cases e with
      | valueError m =>
        simp [OutputValidator.run, hje, hpe, so_ok_bind, so_error_bind, caught,
          pure, Except.pure]
      | validationError m =>
        simp [OutputValidator.run, hje, hpe, so_ok_bind, so_error_bind, caught,
          pure, Except.pure]
      | indexError m => exact absurd hpe (hp obj m)
  | error e =>
    cases e with
    | valueError m =>
      simp [OutputValidator.run, hje, so_error_bind, caught, pure, Except.pure]
    | validationError m =>
      simp [OutputValidator.run, hje, so_error_bind, caught, pure, Except.pure]
    | indexError m => exact absurd hje (hj m)

/-- Witness for C9: with the concrete decode and validation functions, the
empty reply list makes `run` fail with the uncaught `IndexError`. -/
theorem C9_index_error_witness :
    (OutputValidator.run jsonLoadsNum parseObjNum validator0 []).1 =
      .error (.indexError "list index out of range") :=
  (C9_index_error jsonLoadsNum parseObjNum validator0).1

/-- C10: every call to `run` — on every reply list and on every outcome,
valid, invalid or propagated exception — leaves the instance state with the
iteration counter incremented by exactly one and the configured Pydantic
model unchanged; the instance state consists of exactly these two fields. -/
theorem C10_frame {Model Obj : Type}
    (jsonLoads : String → Except PyExc Obj)
    (parseObj : Model → Obj → Except PyExc Unit)
    (v : OutputValidator Model) (replies : List ChatMessage) :
    (OutputValidator.run jsonLoads parseObj v replies).2 =
      { pydantic_model := v.pydantic_model,
        iteration_counter := v.iteration_counter + 1 } := by
  cases replies with
  | nil => rfl
  | cons r0 rest =>
    cases hj : jsonLoads r0.text with
    | ok obj =>
      cases hp : parseObj v.pydantic_model obj with
      | ok u =>
        simp [OutputValidator.run, hj, hp, so_ok_bind, so_error_bind, pure,
          Except.pure]
      | error e =>
        cases hc : caught e <;>
          simp [OutputValidator.run, hj, hp, so_ok_bind, so_error_bind, hc, pure,
            Except.pure]
    | error e =>
      cases hc : caught e <;>
        simp [OutputValidator.run, hj, so_error_bind, hc, pure, Except.pure]

end StructuredOutputLoop
